import Mathlib

/-!
Verification of the salo-backend core: entity state machines, visibility
predicates, the order/subscription use cases and the subscription
expiration sweep, shallowly embedded from the TypeScript source.
Dates are modelled as epoch milliseconds (`Int`); JS `Date` comparisons
become integer comparisons.  Entity classes become structures; methods
that throw become `Except`-valued functions; repository-backed services
become explicit state passing over a `World` record.
-/

namespace Salo

/-! ## Statuses (src/domain/entities) -/

inductive RestaurantStatus
  | PENDING
  | ACTIVE
  | SUSPENDED
  | INACTIVE
deriving DecidableEq, Repr

inductive SubscriptionStatus
  | PENDING
  | ACTIVE
  | EXPIRED
  | CANCELLED
deriving DecidableEq, Repr

inductive ProductStatus
  | ACTIVE
  | INACTIVE
  | OUT_OF_STOCK
deriving DecidableEq, Repr

inductive OrderStatus
  | PENDING
  | ACCEPTED
  | REJECTED
  | CONFIRMED
  | PREPARING
  | READY
  | DELIVERED
  | CANCELLED
  | REPORTED
deriving DecidableEq, Repr

/-! ## Restaurant entity (restaurant.entity.ts) -/

structure Restaurant where
  id : String
  name : String
  description : Option String
  address : String
  phone : String
  status : RestaurantStatus
  ownerId : String
  deletedAt : Option Int
  createdAt : Int
  updatedAt : Int
deriving DecidableEq, Repr

def Restaurant.isDeleted (r : Restaurant) : Bool :=
  r.deletedAt.isSome

def Restaurant.isVisible (r : Restaurant) : Bool :=
  r.status == .ACTIVE && !r.isDeleted

def Restaurant.visibility (r : Restaurant) : Int :=
  if r.isVisible then 100 else 0

def Restaurant.isActive (r : Restaurant) : Bool :=
  r.status == .ACTIVE && !r.isDeleted

def Restaurant.canReceiveOrders (r : Restaurant) : Bool :=
  r.isActive

def Restaurant.suspend (r : Restaurant) (now : Int) : Restaurant :=
  { r with status := .SUSPENDED, updatedAt := now }

def Restaurant.activate (r : Restaurant) (now : Int) : Restaurant :=
  { r with status := .ACTIVE, updatedAt := now }

/-! ## Subscription entity (subscription.entity.ts) -/

structure Subscription where
  id : String
  status : SubscriptionStatus
  startDate : Option Int
  endDate : Option Int
  monthlyAmount : Int
  restaurantId : String
  createdAt : Int
  updatedAt : Int
deriving DecidableEq, Repr

def Subscription.isValid (s : Subscription) (now : Int) : Bool :=
  if s.status != .ACTIVE then false
  else
    match s.endDate with
    | none => false
    | some e => decide (now < e)

def Subscription.isExpired (s : Subscription) (now : Int) : Bool :=
  match s.endDate with
  | none => s.status == .EXPIRED
  | some e => decide (e ≤ now)

def Subscription.isActive (s : Subscription) : Bool :=
  s.status == .ACTIVE

def Subscription.isPending (s : Subscription) : Bool :=
  s.status == .PENDING

def Subscription.daysRemaining (s : Subscription) (now : Int) : Int :=
  match s.endDate with
  | none => 0
  | some e => max 0 ((e - now + 86399999) / 86400000)

def Subscription.activate (s : Subscription) (startDate endDate now : Int) : Subscription :=
  { s with status := .ACTIVE, startDate := some startDate, endDate := some endDate, updatedAt := now }

def Subscription.expire (s : Subscription) (now : Int) : Subscription :=
  { s with status := .EXPIRED, updatedAt := now }

def Subscription.cancel (s : Subscription) (now : Int) : Subscription :=
  { s with status := .CANCELLED, updatedAt := now }

/-! ## Product entity (product.entity.ts) -/

structure Product where
  id : String
  name : String
  price : Int
  quantity : Int
  status : ProductStatus
  deletedAt : Option Int
  restaurantId : String
  createdAt : Int
  updatedAt : Int
deriving DecidableEq, Repr

def Product.isDeleted (p : Product) : Bool :=
  p.deletedAt.isSome

def Product.isActive (p : Product) : Bool :=
  p.status == .ACTIVE && !p.isDeleted

def Product.isVisible (p : Product) : Bool :=
  p.status == .ACTIVE && !p.isDeleted

def Product.canBeOrdered (p : Product) : Bool :=
  p.isActive && decide (0 < p.quantity)

/-! ## Order entity and its state machine (order.entity.ts) -/

structure OrderItem where
  id : String
  quantity : Int
  unitPrice : Int
  menuItemId : String
deriving DecidableEq, Repr

structure Order where
  id : String
  status : OrderStatus
  totalAmount : Int
  notes : Option String
  idempotencyKey : String
  customerId : String
  restaurantId : String
  items : List OrderItem
  rejectionReason : Option String
  reportReason : Option String
  cancellationReason : Option String
  createdAt : Int
  updatedAt : Int
deriving DecidableEq, Repr

def VALID_TRANSITIONS : OrderStatus → List OrderStatus
  | .PENDING => [.ACCEPTED, .REJECTED, .CANCELLED]
  | .ACCEPTED => [.CONFIRMED, .CANCELLED, .REPORTED]
  | .REJECTED => []
  | .CONFIRMED => [.PREPARING, .CANCELLED, .REPORTED]
  | .PREPARING => [.READY, .CANCELLED, .REPORTED]
  | .READY => [.DELIVERED, .REPORTED]
  | .DELIVERED => [.REPORTED]
  | .CANCELLED => []
  | .REPORTED => []

def Order.canTransitionTo (o : Order) (newStatus : OrderStatus) : Bool :=
  (VALID_TRANSITIONS o.status).contains newStatus

def Order.getValidNextStates (o : Order) : List OrderStatus :=
  VALID_TRANSITIONS o.status

def Order.canBeCancelled (o : Order) : Bool := o.canTransitionTo .CANCELLED

def Order.canBeAccepted (o : Order) : Bool := o.canTransitionTo .ACCEPTED

def Order.canBeRejected (o : Order) : Bool := o.canTransitionTo .REJECTED

def Order.canBeReported (o : Order) : Bool := o.canTransitionTo .REPORTED

/-- The JS blank test `!reason || reason.trim() === ''`: true exactly
when the string contains nothing but whitespace. -/
def isBlank (s : String) : Bool :=
  s.data.all Char.isWhitespace

/-- Errors thrown by the order entity: an invalid transition carries the
current state and the computed list of valid next states (as the source
error message does); a missing mandatory reason carries its message. -/
inductive OrderError
  | invalidTransition (current : OrderStatus) (validNext : List OrderStatus)
  | missingReason (message : String)
deriving DecidableEq, Repr

def Order.accept (o : Order) (now : Int) : Except OrderError Order :=
  if !o.canBeAccepted then
    .error (.invalidTransition o.status o.getValidNextStates)
  else
    .ok { o with status := .ACCEPTED, updatedAt := now }

def Order.reject (o : Order) (reason : String) (now : Int) : Except OrderError Order :=
  if !o.canBeRejected then
    .error (.invalidTransition o.status o.getValidNextStates)
  else if isBlank reason then
    .error (.missingReason "Rejection reason is required")
  else
    .ok { o with status := .REJECTED, rejectionReason := some reason, updatedAt := now }

def Order.confirm (o : Order) (now : Int) : Except OrderError Order :=
  if !o.canTransitionTo .CONFIRMED then
    .error (.invalidTransition o.status o.getValidNextStates)
  else
    .ok { o with status := .CONFIRMED, updatedAt := now }

def Order.startPreparing (o : Order) (now : Int) : Except OrderError Order :=
  if !o.canTransitionTo .PREPARING then
    .error (.invalidTransition o.status o.getValidNextStates)
  else
    .ok { o with status := .PREPARING, updatedAt := now }

def Order.markReady (o : Order) (now : Int) : Except OrderError Order :=
  if !o.canTransitionTo .READY then
    .error (.invalidTransition o.status o.getValidNextStates)
  else
    .ok { o with status := .READY, updatedAt := now }

def Order.markDelivered (o : Order) (now : Int) : Except OrderError Order :=
  if !o.canTransitionTo .DELIVERED then
    .error (.invalidTransition o.status o.getValidNextStates)
  else
    .ok { o with status := .DELIVERED, updatedAt := now }

def Order.cancel (o : Order) (reason : Option String) (now : Int) : Except OrderError Order :=
  if !o.canBeCancelled then
    .error (.invalidTransition o.status o.getValidNextStates)
  else
    .ok { o with status := .CANCELLED,
                 cancellationReason := reason.bind (fun r => if r == "" then none else some r),
                 updatedAt := now }

def Order.report (o : Order) (reason : String) (now : Int) : Except OrderError Order :=
  if !o.canBeReported then
    .error (.invalidTransition o.status o.getValidNextStates)
  else if isBlank reason then
    .error (.missingReason "Report reason is required")
  else
    .ok { o with status := .REPORTED, reportReason := some reason, updatedAt := now }

/-- The eight named actions on an order, with the target state each one
declares in the entity code. -/
inductive OrderAction
  | accept
  | reject
  | confirm
  | startPreparing
  | markReady
  | markDelivered
  | cancel
  | report
deriving DecidableEq, Repr

def OrderAction.target : OrderAction → OrderStatus
  | .accept => .ACCEPTED
  | .reject => .REJECTED
  | .confirm => .CONFIRMED
  | .startPreparing => .PREPARING
  | .markReady => .READY
  | .markDelivered => .DELIVERED
  | .cancel => .CANCELLED
  | .report => .REPORTED

def applyOrderAction (a : OrderAction) (reason : String) (now : Int) (o : Order) :
    Except OrderError Order :=
  match a with
  | .accept => o.accept now
  | .reject => o.reject reason now
  | .confirm => o.confirm now
  | .startPreparing => o.startPreparing now
  | .markReady => o.markReady now
  | .markDelivered => o.markDelivered now
  | .cancel => o.cancel (some reason) now
  | .report => o.report reason now

/-! ## Audit trail (audit-log.repository.interface.ts) -/

inductive AuditAction
  | SUBSCRIPTION_CREATED
  | SUBSCRIPTION_ACTIVATED
  | SUBSCRIPTION_EXPIRED
  | SUBSCRIPTION_CANCELLED
  | RESTAURANT_ACTIVATED
  | RESTAURANT_SUSPENDED
  | RESTAURANT_CREATED
  | RESTAURANT_DELETED
  | ORDER_CREATED
  | ORDER_UPDATED
  | PAYMENT_VALIDATED
  | PAYMENT_REJECTED
  | ADMIN_ACTION
deriving DecidableEq, Repr

/-- Entity snapshots stored in previous/new state blobs of an audit entry
(the source serializes `toJSON()` of the entity). -/
inductive Snapshot
  | subscription (s : Subscription)
  | restaurant (r : Restaurant)
  | order (o : Order)
deriving DecidableEq, Repr

/-- Free-form audit metadata, modelled as the union of the fields the
embedded call sites actually write. -/
structure Metadata where
  jobId : Option String
  triggeredAt : Option String
  reason : Option String
  subscriptionId : Option String
  automaticSuspension : Option Bool
  restaurantId : Option String
  totalAmount : Option Int
  itemCount : Option Nat
  activatedBy : Option String
  startDate : Option Int
  endDate : Option Int
deriving DecidableEq, Repr

def Metadata.empty : Metadata :=
  ⟨none, none, none, none, none, none, none, none, none, none, none⟩

structure AuditEntry where
  action : AuditAction
  entityType : String
  entityId : String
  previousState : Option Snapshot
  newState : Option Snapshot
  correlationId : String
  userId : Option String
  metadata : Option Metadata
deriving DecidableEq, Repr

/-! ## DTOs (order.dto.ts, subscription.dto.ts and use-case response shapes) -/

structure OrderItemDto where
  id : String
  menuItemId : String
  quantity : Int
  unitPrice : Int
deriving DecidableEq, Repr

structure OrderResponseDto where
  id : String
  status : OrderStatus
  totalAmount : Int
  notes : Option String
  customerId : String
  restaurantId : String
  items : List OrderItemDto
  createdAt : Int
  updatedAt : Int
deriving DecidableEq, Repr

structure CreateOrderItemDto where
  menuItemId : String
  quantity : Int
deriving DecidableEq, Repr

structure CreateOrderDto where
  restaurantId : String
  items : List CreateOrderItemDto
  notes : Option String
deriving DecidableEq, Repr

structure SubscriptionResponseDto where
  id : String
  status : SubscriptionStatus
  startDate : Option Int
  endDate : Option Int
  monthlyAmount : Int
  restaurantId : String
  daysRemaining : Int
  isValid : Bool
  createdAt : Int
  updatedAt : Int
deriving DecidableEq, Repr

/-- Errors surfaced by the use cases (NestJS exception kinds). -/
inductive UseCaseError
  | notFound (message : String)
  | forbidden (message : String)
  | badRequest (message : String)
deriving DecidableEq, Repr

/-! ## World state: the backing stores and the idempotency cache -/

/-- A menu item row as read by OrderUseCase.create. -/
structure MenuItem where
  id : String
  name : String
  restaurantId : String
  price : Int
  isAvailable : Bool
deriving DecidableEq, Repr

/-- A cached idempotency record: HTTP status code plus response body
(idempotency.service.ts stores the pair as JSON under the key). -/
structure CachedResponse where
  statusCode : Nat
  body : OrderResponseDto
deriving DecidableEq, Repr

/-- The persistent state the embedded services read and write: each store
is a list of rows; `uuidCounter` models the uuidv4 generator as a
fresh-name supply. -/
structure World where
  restaurants : List Restaurant
  subscriptions : List Subscription
  orders : List Order
  menuItems : List MenuItem
  idemCache : List (String × CachedResponse)
  auditLog : List AuditEntry
  uuidCounter : Nat
deriving DecidableEq, Repr

def findRestaurantById (w : World) (id : String) : Option Restaurant :=
  w.restaurants.find? (fun r => r.id == id)

def findSubscriptionById (w : World) (id : String) : Option Subscription :=
  w.subscriptions.find? (fun s => s.id == id)

def findMenuItemById (w : World) (id : String) : Option MenuItem :=
  w.menuItems.find? (fun m => m.id == id)

def findOrderByIdempotencyKey (w : World) (key : String) : Option Order :=
  w.orders.find? (fun o => o.idempotencyKey == key)

/-- PrismaSubscriptionRepository.findActiveByRestaurantId: first match of
status ACTIVE for the restaurant ordered by createdAt descending (ties
resolve to the earlier row, the database order being unspecified). -/
def findActiveByRestaurantId (w : World) (restaurantId : String) : Option Subscription :=
  (w.subscriptions.filter (fun s => s.restaurantId == restaurantId && s.status == .ACTIVE)).foldl
    (fun acc s =>
      match acc with
      | none => some s
      | some best => if best.createdAt < s.createdAt then some s else some best) none

/-- PrismaSubscriptionRepository.findExpiredSubscriptions: all rows with
status ACTIVE and endDate <= now (a null endDate never matches the
`lte` filter). -/
def findExpiredSubscriptions (w : World) (now : Int) : List Subscription :=
  w.subscriptions.filter (fun s =>
    s.status == .ACTIVE &&
      (match s.endDate with
       | some e => decide (e ≤ now)
       | none => false))

/-- IdempotencyService.check. -/
def idemCheck (w : World) (key : String) : Option CachedResponse :=
  (w.idemCache.find? (fun kv => kv.1 == key)).map (fun kv => kv.2)

/-- IdempotencyService.store (redis set: the newest entry shadows any
older one for the same key). -/
def idemStore (w : World) (key : String) (statusCode : Nat) (body : OrderResponseDto) : World :=
  { w with idemCache := (key, ⟨statusCode, body⟩) :: w.idemCache }

/-- AuditLogRepository.create: append-only. -/
def auditCreate (w : World) (entry : AuditEntry) : World :=
  { w with auditLog := w.auditLog ++ [entry] }

/-- uuidv4 modelled as a fresh-name supply. -/
def freshUuid (w : World) : String × World :=
  ("uuid-" ++ toString w.uuidCounter, { w with uuidCounter := w.uuidCounter + 1 })

/-- The `correlationId || uuidv4()` idiom: the generator is consulted
only when the caller supplied no id. -/
def resolveCorrelationId (corr : Option String) (w : World) : String × World :=
  match corr with
  | some c => (c, w)
  | none => freshUuid w

/-- Row update used by PrismaSubscriptionRepository.markExpired. -/
def expireIdInList (id : String) (now : Int) (l : List Subscription) : List Subscription :=
  l.map (fun t => if t.id == id then { t with status := .EXPIRED, updatedAt := now } else t)

/-- PrismaSubscriptionRepository.markExpired: update throws (none) when
the row is absent, else returns the updated row. -/
def markExpiredRepo (w : World) (id : String) (now : Int) : Option (Subscription × World) :=
  match findSubscriptionById w id with
  | none => none
  | some s =>
    some ({ s with status := .EXPIRED, updatedAt := now },
      { w with subscriptions := expireIdInList id now w.subscriptions })

/-- PrismaRestaurantRepository.updateStatus. -/
def updateRestaurantStatusRepo (w : World) (id : String) (status : RestaurantStatus)
    (now : Int) : Option (Restaurant × World) :=
  match findRestaurantById w id with
  | none => none
  | some r =>
    some ({ r with status := status, updatedAt := now },
      { w with restaurants := w.restaurants.map (fun t =>
          if t.id == id then { t with status := status, updatedAt := now } else t) })

/-! ## OrderUseCase.create (analytics.use-case.ts, OrderUseCase section) -/

structure OrderItemData where
  menuItemId : String
  quantity : Int
  unitPrice : Int
deriving DecidableEq, Repr

structure CreateOrderData where
  customerId : String
  restaurantId : String
  items : List OrderItemData
  notes : Option String
  idempotencyKey : String
  totalAmount : Int
deriving DecidableEq, Repr

def restaurantStatusString : RestaurantStatus → String
  | .PENDING => "PENDING"
  | .ACTIVE => "ACTIVE"
  | .SUSPENDED => "SUSPENDED"
  | .INACTIVE => "INACTIVE"

/-- The menu-item pricing loop of OrderUseCase.create: validates each
item and accumulates the total amount and order-item data. -/
def computeOrderItems (w : World) (restaurantId : String) :
    List CreateOrderItemDto → Except UseCaseError (Int × List OrderItemData)
  | [] => .ok (0, [])
  | item :: rest =>
    match findMenuItemById w item.menuItemId with
    | none => .error (.notFound ("Menu item " ++ item.menuItemId ++ " not found"))
    | some menuItem =>
      if !menuItem.isAvailable then
        .error (.badRequest ("Menu item " ++ menuItem.name ++ " is not available"))
      else if menuItem.restaurantId != restaurantId then
        .error (.badRequest ("Menu item " ++ item.menuItemId ++
          " does not belong to this restaurant"))
      else
        match computeOrderItems w restaurantId rest with
        | .error e => .error e
        | .ok (total, datas) =>
          .ok (menuItem.price * item.quantity + total,
            ⟨item.menuItemId, item.quantity, menuItem.price⟩ :: datas)

/-- PrismaOrderRepository.create: a fresh id, status PENDING, nested
item rows (their generated ids derived from the order id). -/
def orderRepoCreate (w : World) (data : CreateOrderData) (now : Int) : Order × World :=
  let (oid, w1) := freshUuid w
  let items : List OrderItem := data.items.enum.map (fun p =>
    ⟨oid ++ "-item-" ++ toString p.1, p.2.quantity, p.2.unitPrice, p.2.menuItemId⟩)
  let order : Order :=
    { id := oid, status := .PENDING, totalAmount := data.totalAmount, notes := data.notes,
      idempotencyKey := data.idempotencyKey, customerId := data.customerId,
      restaurantId := data.restaurantId, items := items, rejectionReason := none,
      reportReason := none, cancellationReason := none, createdAt := now, updatedAt := now }
  (order, { w1 with orders := order :: w1.orders })

def toOrderResponseDto (o : Order) : OrderResponseDto :=
  { id := o.id, status := o.status, totalAmount := o.totalAmount, notes := o.notes,
    customerId := o.customerId, restaurantId := o.restaurantId,
    items := o.items.map (fun i => ⟨i.id, i.menuItemId, i.quantity, i.unitPrice⟩),
    createdAt := o.createdAt, updatedAt := o.updatedAt }

/-- OrderUseCase.create: idempotency-cache replay, repository-level key
dedup, restaurant activity check, subscription validity check, pricing,
persistence, idempotency store, audit. On a thrown error the world is
returned unchanged (no write precedes any throw in the source). -/
def OrderUseCase.create (w : World) (dto : CreateOrderDto) (customerId idempotencyKey : String)
    (correlationId : Option String) (now : Int) :
    Except UseCaseError OrderResponseDto × World :=
  match idemCheck w idempotencyKey with
  | some cached => (.ok cached.body, w)
  | none =>
    match findOrderByIdempotencyKey w idempotencyKey with
    | some existing => (.ok (toOrderResponseDto existing), w)
    | none =>
      match findRestaurantById w dto.restaurantId with
      | none => (.error (.notFound "Restaurant not found"), w)
      | some restaurant =>
        if !restaurant.isActive then
          (.error (.forbidden ("Restaurant is not accepting orders. Status: " ++
            restaurantStatusString restaurant.status)), w)
        else
          match findActiveByRestaurantId w dto.restaurantId with
          | none => (.error (.forbidden "Restaurant subscription is not active or has expired"), w)
          | some subscription =>
            if !subscription.isValid now then
              (.error (.forbidden "Restaurant subscription is not active or has expired"), w)
            else
              match computeOrderItems w dto.restaurantId dto.items with
              | .error e => (.error e, w)
              | .ok (totalAmount, itemDatas) =>
                let ow := orderRepoCreate w
                  { customerId := customerId, restaurantId := dto.restaurantId,
                    items := itemDatas, notes := dto.notes,
                    idempotencyKey := idempotencyKey, totalAmount := totalAmount } now
                let response := toOrderResponseDto ow.1
                let w2 := idemStore ow.2 idempotencyKey 201 response
                let cw := resolveCorrelationId correlationId w2
                let w4 := auditCreate cw.2
                  { action := .ORDER_CREATED, entityType := "Order", entityId := ow.1.id,
                    previousState := none, newState := some (.order ow.1),
                    correlationId := cw.1, userId := some customerId,
                    metadata := some { Metadata.empty with
                      restaurantId := some dto.restaurantId,
                      totalAmount := some totalAmount,
                      itemCount := some itemDatas.length } }
                (.ok response, w4)

/-! ## SubscriptionUseCase (admin.use-case.ts, SubscriptionUseCase section) -/

def toSubscriptionResponseDto (s : Subscription) (now : Int) : SubscriptionResponseDto :=
  { id := s.id, status := s.status, startDate := s.startDate, endDate := s.endDate,
    monthlyAmount := s.monthlyAmount, restaurantId := s.restaurantId,
    daysRemaining := s.daysRemaining now, isValid := s.isValid now,
    createdAt := s.createdAt, updatedAt := s.updatedAt }

/-- SubscriptionUseCase.activateSubscription: fails NotFound when the
subscription is absent, BadRequest when it is already ACTIVE; otherwise
activates it with startDate = now and endDate = one calendar month later
(the JS `setMonth(getMonth()+1)` arithmetic is abstracted as the
`addOneMonth` parameter), cascades the owning restaurant to ACTIVE when
it exists, and writes the restaurant audit entry then the subscription
audit entry, each resolving `correlationId || uuidv4()` separately. -/
def SubscriptionUseCase.activateSubscription (w : World) (subscriptionId adminId : String)
    (correlationId : Option String) (now : Int) (addOneMonth : Int → Int) :
    Except UseCaseError SubscriptionResponseDto × World :=
  match findSubscriptionById w subscriptionId with
  | none => (.error (.notFound "Subscription not found"), w)
  | some subscription =>
    if subscription.isActive then
      (.error (.badRequest "Subscription is already active"), w)
    else
      let previousState := subscription
      let startDate := now
      let endDate := addOneMonth now
      let activated : Subscription :=
        { subscription with status := .ACTIVE, startDate := some startDate,
                            endDate := some endDate, updatedAt := now }
      let w1 : World :=
        { w with subscriptions := w.subscriptions.map (fun t =>
            if t.id == subscriptionId then
              { t with status := .ACTIVE, startDate := some startDate,
                       endDate := some endDate, updatedAt := now }
            else t) }
      let w2 : World :=
        match findRestaurantById w1 subscription.restaurantId with
        | none => w1
        | some restaurant =>
          let w2a : World :=
            { w1 with restaurants := w1.restaurants.map (fun t =>
                if t.id == restaurant.id then { t with status := .ACTIVE, updatedAt := now }
                else t) }
          let cw1 := resolveCorrelationId correlationId w2a
          auditCreate cw1.2
            { action := .RESTAURANT_ACTIVATED, entityType := "Restaurant",
              entityId := restaurant.id,
              previousState := some (.restaurant restaurant),
              newState := some (.restaurant { restaurant with status := .ACTIVE }),
              correlationId := cw1.1, userId := some adminId,
              metadata := some { Metadata.empty with
                subscriptionId := some subscriptionId, activatedBy := some "ADMIN" } }
      let cw2 := resolveCorrelationId correlationId w2
      let w4 := auditCreate cw2.2
        { action := .SUBSCRIPTION_ACTIVATED, entityType := "Subscription",
          entityId := subscriptionId,
          previousState := some (.subscription previousState),
          newState := some (.subscription activated),
          correlationId := cw2.1, userId := some adminId,
          metadata := some { Metadata.empty with
            activatedBy := some "ADMIN", startDate := some startDate,
            endDate := some endDate } }
      (.ok (toSubscriptionResponseDto activated now), w4)

/-- SubscriptionUseCase.cancelSubscription: no status precondition at
all; any found subscription is set to CANCELLED and audited. -/
def SubscriptionUseCase.cancelSubscription (w : World) (subscriptionId userId : String)
    (correlationId : Option String) (now : Int) :
    Except UseCaseError SubscriptionResponseDto × World :=
  match findSubscriptionById w subscriptionId with
  | none => (.error (.notFound "Subscription not found"), w)
  | some subscription =>
    let previousState := subscription
    let cancelled : Subscription := { subscription with status := .CANCELLED, updatedAt := now }
    let w1 : World :=
      { w with subscriptions := w.subscriptions.map (fun t =>
          if t.id == subscriptionId then { t with status := .CANCELLED, updatedAt := now }
          else t) }
    let cw := resolveCorrelationId correlationId w1
    let w3 := auditCreate cw.2
      { action := .SUBSCRIPTION_CANCELLED, entityType := "Subscription",
        entityId := subscriptionId,
        previousState := some (.subscription previousState),
        newState := some (.subscription cancelled),
        correlationId := cw.1, userId := some userId, metadata := none }
    (.ok (toSubscriptionResponseDto cancelled now), w3)

/-! ## Subscription expiration sweep (subscription-expiration.processor) -/

structure SubscriptionExpirationResult where
  processedCount : Nat
  expiredSubscriptions : List String
  suspendedRestaurants : List String
  errors : List String
deriving DecidableEq, Repr

/-- Fault injection for the repository calls made while processing one
subscription: `some msg` means that call throws `msg` for that
subscription id, `none` means it behaves normally.  This models the
try/catch semantics of the job body. -/
structure FaultModel where
  markExpiredFault : String → Option String
  subscriptionAuditFault : String → Option String
  findRestaurantFault : String → Option String
  updateRestaurantFault : String → Option String
  restaurantAuditFault : String → Option String

def noFaults : FaultModel :=
  ⟨fun _ => none, fun _ => none, fun _ => none, fun _ => none, fun _ => none⟩

/-- Outcome of processing one subscription inside the loop: the world as
left by the (possibly partial) execution, the ids pushed onto the
expired/suspended result lists, and the caught per-item error if any. -/
structure ItemOutcome where
  world : World
  expiredIds : List String
  suspendedIds : List String
  itemError : Option String
deriving Repr

/-- The SUBSCRIPTION_EXPIRED audit entry written by the sweep. -/
def subscriptionExpiredEntry (cid jobId triggeredAt : String)
    (sub expiredSub : Subscription) : AuditEntry :=
  { action := .SUBSCRIPTION_EXPIRED, entityType := "Subscription", entityId := sub.id,
    previousState := some (.subscription sub),
    newState := some (.subscription expiredSub),
    correlationId := cid, userId := none,
    metadata := some { Metadata.empty with
      jobId := some jobId, triggeredAt := some triggeredAt,
      reason := some "AUTOMATIC_EXPIRATION" } }

/-- The RESTAURANT_SUSPENDED audit entry written by the sweep: metadata
links back to the subscription and marks the suspension automatic. -/
def restaurantSuspendedEntry (cid jobId subId : String)
    (restaurant suspended : Restaurant) : AuditEntry :=
  { action := .RESTAURANT_SUSPENDED, entityType := "Restaurant", entityId := restaurant.id,
    previousState := some (.restaurant restaurant),
    newState := some (.restaurant suspended),
    correlationId := cid, userId := none,
    metadata := some { Metadata.empty with
      jobId := some jobId, reason := some "SUBSCRIPTION_EXPIRED",
      subscriptionId := some subId, automaticSuspension := some true } }

/-- The body of the per-subscription try block of
SubscriptionExpirationProcessor.process, with the catch applied: a throw
at any point returns the world as mutated so far together with the error
message. -/
def processOneSubscription (faults : FaultModel) (cid jobId triggeredAt : String) (now : Int)
    (sub : Subscription) (w : World) : ItemOutcome :=
  match faults.markExpiredFault sub.id with
  | some msg => ⟨w, [], [], some msg⟩
  | none =>
    match markExpiredRepo w sub.id now with
    | none => ⟨w, [], [], some "Record to update not found"⟩
    | some ew =>
      match faults.subscriptionAuditFault sub.id with
      | some msg => ⟨ew.2, [sub.id], [], some msg⟩
      | none =>
        let w2 := auditCreate ew.2 (subscriptionExpiredEntry cid jobId triggeredAt sub ew.1)
        match faults.findRestaurantFault sub.id with
        | some msg => ⟨w2, [sub.id], [], some msg⟩
        | none =>
          match findRestaurantById w2 sub.restaurantId with
          | none => ⟨w2, [sub.id], [], none⟩
          | some restaurant =>
            if restaurant.isActive then
              match faults.updateRestaurantFault sub.id with
              | some msg => ⟨w2, [sub.id], [], some msg⟩
              | none =>
                match updateRestaurantStatusRepo w2 restaurant.id .SUSPENDED now with
                | none => ⟨w2, [sub.id], [], some "Record to update not found"⟩
                | some rw =>
                  match faults.restaurantAuditFault sub.id with
                  | some msg => ⟨rw.2, [sub.id], [restaurant.id], some msg⟩
                  | none =>
                    let w4 := auditCreate rw.2
                      (restaurantSuspendedEntry cid jobId sub.id restaurant rw.1)
                    ⟨w4, [sub.id], [restaurant.id], none⟩
            else ⟨w2, [sub.id], [], none⟩

/-- The for-loop of the job body: per-item isolation, accumulating the
run summary. -/
def sweepGo (faults : FaultModel) (cid jobId triggeredAt : String) (now : Int) :
    List Subscription → SubscriptionExpirationResult → World →
      SubscriptionExpirationResult × World
  | [], res, w => (res, w)
  | sub :: rest, res, w =>
    let outcome := processOneSubscription faults cid jobId triggeredAt now sub w
    let res2 : SubscriptionExpirationResult :=
      { processedCount := res.processedCount + 1,
        expiredSubscriptions := res.expiredSubscriptions ++ outcome.expiredIds,
        suspendedRestaurants := res.suspendedRestaurants ++ outcome.suspendedIds,
        errors := res.errors ++
          (match outcome.itemError with
           | some msg => ["Subscription " ++ sub.id ++ ": " ++ msg]
           | none => []) }
    sweepGo faults cid jobId triggeredAt now rest res2 outcome.world

/-- SubscriptionExpirationProcessor.process: resolve the run correlation
id, select the overdue subscriptions once, then run the loop. -/
def SubscriptionExpirationProcessor.process (faults : FaultModel)
    (jobCorrelationId : Option String) (jobId triggeredAt : String) (w : World) (now : Int) :
    SubscriptionExpirationResult × World :=
  let cw := resolveCorrelationId jobCorrelationId w
  sweepGo faults cw.1 jobId triggeredAt now (findExpiredSubscriptions cw.2 now) ⟨0, [], [], []⟩ cw.2

/-- Proof helper: the cumulative effect of the markExpired updates of a
run, folded over the processed ids. -/
def expireAll (ids : List String) (now : Int) (l : List Subscription) : List Subscription :=
  ids.foldl (fun acc id => expireIdInList id now acc) l

/-! ## Sample inputs for witnesses -/

def sampleOrderC1 : Order :=
  { id := "order-1", status := .PENDING, totalAmount := 100, notes := none,
    idempotencyKey := "key-1", customerId := "cust-1", restaurantId := "rest-1",
    items := [], rejectionReason := none, reportReason := none,
    cancellationReason := none, createdAt := 0, updatedAt := 0 }

def subC3 : Subscription :=
  { id := "sub-3", status := .ACTIVE, startDate := some 0, endDate := some 50,
    monthlyAmount := 5000, restaurantId := "rest-3", createdAt := 0, updatedAt := 0 }

def restC3 : Restaurant :=
  { id := "rest-3", name := "R3", description := none, address := "addr", phone := "ph",
    status := .ACTIVE, ownerId := "own-3", deletedAt := none, createdAt := 0, updatedAt := 0 }

def worldC3 : World :=
  { restaurants := [restC3], subscriptions := [subC3], orders := [], menuItems := [],
    idemCache := [], auditLog := [], uuidCounter := 0 }

def restC4 : Restaurant :=
  { id := "rest-4", name := "R4", description := none, address := "addr", phone := "ph",
    status := .ACTIVE, ownerId := "own-4", deletedAt := none, createdAt := 0, updatedAt := 0 }

def subC4 : Subscription :=
  { id := "sub-4", status := .ACTIVE, startDate := some 0, endDate := some 1000,
    monthlyAmount := 5000, restaurantId := "rest-4", createdAt := 0, updatedAt := 0 }

def menuC4 : MenuItem :=
  { id := "menu-4", name := "Dish", restaurantId := "rest-4", price := 700,
    isAvailable := true }

def worldC4 : World :=
  { restaurants := [restC4], subscriptions := [subC4], orders := [], menuItems := [menuC4],
    idemCache := [], auditLog := [], uuidCounter := 0 }

def dtoC4 : CreateOrderDto :=
  { restaurantId := "rest-4", items := [⟨"menu-4", 2⟩], notes := none }

def respC4 : OrderResponseDto :=
  match (OrderUseCase.create worldC4 dtoC4 "cust-4" "key-4" (some "cid-4") 10).1 with
  | .ok rsp => rsp
  | .error _ => ⟨"", .PENDING, 0, none, "", "", [], 0, 0⟩

def worldC4b : World :=
  (OrderUseCase.create worldC4 dtoC4 "cust-4" "key-4" (some "cid-4") 10).2

def subC6 : Subscription :=
  { id := "sub-6", status := .PENDING, startDate := none, endDate := none,
    monthlyAmount := 5000, restaurantId := "rest-6", createdAt := 0, updatedAt := 0 }

def restC6 : Restaurant :=
  { id := "rest-6", name := "R6", description := none, address := "addr", phone := "ph",
    status := .PENDING, ownerId := "own-6", deletedAt := none, createdAt := 0, updatedAt := 0 }

def worldC6 : World :=
  { restaurants := [restC6], subscriptions := [subC6], orders := [], menuItems := [],
    idemCache := [], auditLog := [], uuidCounter := 0 }

def restC9 : Restaurant :=
  { id := "rest-9", name := "R9", description := none, address := "addr", phone := "ph",
    status := .SUSPENDED, ownerId := "own-9", deletedAt := none, createdAt := 0,
    updatedAt := 0 }

def worldC9 : World :=
  { restaurants := [restC9], subscriptions := [], orders := [], menuItems := [],
    idemCache := [], auditLog := [], uuidCounter := 0 }

def dtoC9 : CreateOrderDto :=
  { restaurantId := "rest-9", items := [], notes := none }

def sampleSubC10 : Subscription :=
  { id := "sub-10", status := .EXPIRED, startDate := some 0, endDate := some 100,
    monthlyAmount := 5000, restaurantId := "rest-10", createdAt := 0, updatedAt := 0 }

def worldC10 : World :=
  { restaurants := [], subscriptions := [sampleSubC10], orders := [], menuItems := [],
    idemCache := [], auditLog := [], uuidCounter := 0 }

/-! ## Theorems -/

theorem applyOrderAction_mem_ok (o : Order) (a : OrderAction) (reason : String) (now : Int)
    (hreason : isBlank reason = false)
    (hmem : (VALID_TRANSITIONS o.status).contains a.target = true) :
    ∃ o2, applyOrderAction a reason now o = .ok o2 ∧ o2.status = a.target := by
  obtain ⟨oid, st, ta, no, ik, ci, ri, its, rr, pr, cr, ca, ua⟩ := o
  cases a <;> cases st <;>
    simp_all [applyOrderAction, Order.accept, Order.reject, Order.confirm,
      Order.startPreparing, Order.markReady, Order.markDelivered, Order.cancel,
      Order.report, Order.canBeAccepted, Order.canBeRejected, Order.canBeCancelled,
      Order.canBeReported, Order.canTransitionTo, Order.getValidNextStates,
      VALID_TRANSITIONS, OrderAction.target]

theorem applyOrderAction_not_mem_error (o : Order) (a : OrderAction) (reason : String)
    (now : Int) (hmem : (VALID_TRANSITIONS o.status).contains a.target = false) :
    applyOrderAction a reason now o =
      .error (.invalidTransition o.status (VALID_TRANSITIONS o.status)) := by
  obtain ⟨oid, st, ta, no, ik, ci, ri, its, rr, pr, cr, ca, ua⟩ := o
  cases a <;> cases st <;>
    simp_all [applyOrderAction, Order.accept, Order.reject, Order.confirm,
      Order.startPreparing, Order.markReady, Order.markDelivered, Order.cancel,
      Order.report, Order.canBeAccepted, Order.canBeRejected, Order.canBeCancelled,
      Order.canBeReported, Order.canTransitionTo, Order.getValidNextStates,
      VALID_TRANSITIONS, OrderAction.target]

/-- Claim C1: for every order and every (status, action) pair, the action
succeeds with the declared target status exactly when the target is in
the transition table for the current status, and fails with an
invalid-transition error otherwise; the terminal statuses REJECTED,
CANCELLED and REPORTED have an empty valid-next-states list and every
action on them fails. -/
theorem order_transition_closure (o : Order) (a : OrderAction) (reason : String) (now : Int)
    (hreason : isBlank reason = false) :
    ((VALID_TRANSITIONS o.status).contains a.target = true →
      ∃ o2, applyOrderAction a reason now o = .ok o2 ∧ o2.status = a.target)
    ∧ ((VALID_TRANSITIONS o.status).contains a.target = false →
      applyOrderAction a reason now o =
        .error (.invalidTransition o.status (VALID_TRANSITIONS o.status)))
    ∧ (o.status = .REJECTED ∨ o.status = .CANCELLED ∨ o.status = .REPORTED →
      o.getValidNextStates = [] ∧
        ∀ a2 : OrderAction, applyOrderAction a2 reason now o =
          .error (.invalidTransition o.status [])) := by
  refine ⟨fun hmem => applyOrderAction_mem_ok o a reason now hreason hmem,
          fun hmem => applyOrderAction_not_mem_error o a reason now hmem,
          fun hterm => ?_⟩
  have hempty : VALID_TRANSITIONS o.status = [] := by
    rcases hterm with h | h | h <;> rw [h] <;> rfl
  refine ⟨hempty, fun a2 => ?_⟩
  have hc : (VALID_TRANSITIONS o.status).contains a2.target = false := by
    rw [hempty]; rfl
  have := applyOrderAction_not_mem_error o a2 reason now hc
  rwa [hempty] at this

/-- Witness for C1 at a concrete pending order and the accept action. -/
theorem order_transition_closure_witness :
    (isBlank "valid reason" = false) ∧
    (((VALID_TRANSITIONS sampleOrderC1.status).contains OrderAction.accept.target = true →
      ∃ o2, applyOrderAction .accept "valid reason" 5 sampleOrderC1 = .ok o2 ∧
        o2.status = OrderAction.accept.target)
    ∧ ((VALID_TRANSITIONS sampleOrderC1.status).contains OrderAction.accept.target = false →
      applyOrderAction .accept "valid reason" 5 sampleOrderC1 =
        .error (.invalidTransition sampleOrderC1.status
          (VALID_TRANSITIONS sampleOrderC1.status)))
    ∧ (sampleOrderC1.status = .REJECTED ∨ sampleOrderC1.status = .CANCELLED ∨
        sampleOrderC1.status = .REPORTED →
      sampleOrderC1.getValidNextStates = [] ∧
        ∀ a2 : OrderAction, applyOrderAction a2 "valid reason" 5 sampleOrderC1 =
          .error (.invalidTransition sampleOrderC1.status []))) :=
  ⟨by decide, order_transition_closure sampleOrderC1 .accept "valid reason" 5 (by decide)⟩

/-- Claim C5: isValid is exactly status ACTIVE with a non-null endDate
strictly in the future; a null endDate is never valid; one second past
the end is invalid and expired; one second before the end is valid and
not expired. -/
theorem subscription_validity_boundary (s : Subscription) (now : Int) :
    (s.isValid now = true ↔ s.status = .ACTIVE ∧ ∃ e, s.endDate = some e ∧ now < e)
    ∧ ({ s with endDate := none } : Subscription).isValid now = false
    ∧ ({ s with status := .ACTIVE, endDate := some (now - 1000) } : Subscription).isValid now
        = false
    ∧ ({ s with status := .ACTIVE, endDate := some (now - 1000) } : Subscription).isExpired now
        = true
    ∧ ({ s with status := .ACTIVE, endDate := some (now + 1000) } : Subscription).isValid now
        = true
    ∧ ({ s with status := .ACTIVE, endDate := some (now + 1000) } : Subscription).isExpired now
        = false := by
  obtain ⟨id, st, sd, ed, ma, ri, ca, ua⟩ := s
  refine ⟨?_, ?_, ?_, ?_, ?_, ?_⟩ <;>
    cases st <;> cases ed <;>
      simp [Subscription.isValid, Subscription.isExpired]

/-- Claim C7: restaurant and product visibility are exactly status
ACTIVE with no soft-delete timestamp, and the derived restaurant
visibility score is 100 when visible and 0 otherwise. -/
theorem visibility_invariant (r : Restaurant) (p : Product) :
    (r.isVisible = true ↔ r.status = .ACTIVE ∧ r.deletedAt = none)
    ∧ r.visibility = (if r.isVisible then 100 else 0)
    ∧ (p.isVisible = true ↔ p.status = .ACTIVE ∧ p.deletedAt = none) := by
  obtain ⟨rid, rn, rd, ra, rp, rst, ro, rdel, rca, rua⟩ := r
  obtain ⟨pid, pn, pp, pq, pst, pdel, pri, pca, pua⟩ := p
  refine ⟨?_, rfl, ?_⟩ <;>
    cases rst <;> cases rdel <;> cases pst <;> cases pdel <;>
      simp [Restaurant.isVisible, Restaurant.isDeleted, Product.isVisible, Product.isDeleted]

/-- Claim C10: Subscription.cancel and Subscription.expire check no
precondition: from any starting status they return a subscription with
the new status, changing nothing but status and updatedAt, and the
cancelSubscription use case succeeds for any found subscription. -/
theorem subscription_no_transition_guards (s : Subscription) (now : Int) (w : World)
    (subscriptionId userId c : String) (now2 : Int) (sub : Subscription)
    (hfound : findSubscriptionById w subscriptionId = some sub) :
    (s.cancel now).status = .CANCELLED
    ∧ (s.expire now).status = .EXPIRED
    ∧ s.cancel now = { s with status := .CANCELLED, updatedAt := now }
    ∧ s.expire now = { s with status := .EXPIRED, updatedAt := now }
    ∧ (SubscriptionUseCase.cancelSubscription w subscriptionId userId (some c) now2).1 =
        .ok (toSubscriptionResponseDto
          { sub with status := .CANCELLED, updatedAt := now2 } now2) := by
  refine ⟨rfl, rfl, rfl, rfl, ?_⟩
  unfold SubscriptionUseCase.cancelSubscription
  rw [hfound]

theorem expireIdInList_map_id (id : String) (now : Int) (l : List Subscription) :
    (expireIdInList id now l).map (fun s => s.id) = l.map (fun s => s.id) := by
  unfold expireIdInList
  rw [List.map_map]
  refine List.map_congr_left (fun a _ => ?_)
  by_cases h : a.id = id <;> simp [h]

theorem mem_expireAll (ids : List String) (now : Int) (l : List Subscription)
    (s2 : Subscription) (h : s2 ∈ expireAll ids now l) :
    ∃ s ∈ l, s2.id = s.id ∧ ((s2 = s ∧ s.id ∉ ids) ∨ s2.status = .EXPIRED) := by
  induction ids generalizing l with
  | nil => exact ⟨s2, h, rfl, .inl ⟨rfl, by simp⟩⟩
  | cons id rest ih =>
    have h2 := ih (expireIdInList id now l) (by simpa [expireAll] using h)
    obtain ⟨s1, hs1mem, hid, hcase⟩ := h2
    rw [expireIdInList] at hs1mem
    obtain ⟨s0, hs0mem, hs0eq⟩ := List.mem_map.mp hs1mem
    by_cases hmatch : s0.id = id
    · refine ⟨s0, hs0mem, ?_, .inr ?_⟩
      · rw [hid, ← hs0eq]
        simp [hmatch]
      · rcases hcase with ⟨heq, _⟩ | hexp
        · rw [heq, ← hs0eq]
          simp [hmatch]
        · exact hexp
    · have hs1 : s1 = s0 := by rw [← hs0eq]; simp [hmatch]
      rw [hs1] at hid hcase
      refine ⟨s0, hs0mem, hid, ?_⟩
      rcases hcase with ⟨heq, hnot⟩ | hexp
      · exact .inl ⟨heq, by simp only [List.mem_cons, not_or]; exact ⟨hmatch, hnot⟩⟩
      · exact .inr hexp

theorem findSubscriptionById_of_mem_ids (w : World) (key : String)
    (h : key ∈ w.subscriptions.map (fun s => s.id)) :
    ∃ s, findSubscriptionById w key = some s := by
  obtain ⟨s, hs, hid⟩ := List.mem_map.mp h
  have hsome : (w.subscriptions.find? (fun t => t.id == key)).isSome := by
    rw [List.find?_isSome]
    exact ⟨s, hs, by simp [hid]⟩
  exact Option.isSome_iff_exists.mp hsome

theorem findRestaurantById_self (w : World) (key : String) (r : Restaurant)
    (h : findRestaurantById w key = some r) :
    ∃ x, findRestaurantById w r.id = some x := by
  have hmem : r ∈ w.restaurants := List.mem_of_find?_eq_some h
  have hsome : (w.restaurants.find? (fun t => t.id == r.id)).isSome := by
    rw [List.find?_isSome]
    exact ⟨r, hmem, by simp⟩
  exact Option.isSome_iff_exists.mp hsome

theorem updateRestaurantStatusRepo_spec (w : World) (id : String)
    (st : RestaurantStatus) (now : Int) (p : Restaurant × World)
    (h : updateRestaurantStatusRepo w id st now = some p) :
    p.2.subscriptions = w.subscriptions ∧ p.2.auditLog = w.auditLog := by
  unfold updateRestaurantStatusRepo at h
  split at h
  · exact absurd h (by simp)
  · cases h
    exact ⟨rfl, rfl⟩

theorem processOne_noFaults_subs (cid jobId trig : String) (now : Int) (sub : Subscription)
    (w : World) (s : Subscription) (hs : findSubscriptionById w sub.id = some s) :
    (processOneSubscription noFaults cid jobId trig now sub w).world.subscriptions =
        expireIdInList sub.id now w.subscriptions
    ∧ (processOneSubscription noFaults cid jobId trig now sub w).expiredIds = [sub.id] := by
  unfold processOneSubscription
  simp only [noFaults, markExpiredRepo, hs, auditCreate]
  split
  · exact ⟨rfl, rfl⟩
  · split
    · split
      · exact ⟨rfl, rfl⟩
      · rename_i p heq
        have := updateRestaurantStatusRepo_spec _ _ _ _ _ heq
        exact ⟨this.1, rfl⟩
    · exact ⟨rfl, rfl⟩

theorem sweepGo_noFaults (cid jobId trig : String) (now : Int) (subs : List Subscription) :
    ∀ (res : SubscriptionExpirationResult) (w : World),
      (∀ sub ∈ subs, sub.id ∈ w.subscriptions.map (fun s => s.id)) →
      (sweepGo noFaults cid jobId trig now subs res w).1.expiredSubscriptions =
          res.expiredSubscriptions ++ subs.map (fun s => s.id)
      ∧ (sweepGo noFaults cid jobId trig now subs res w).2.subscriptions =
          expireAll (subs.map (fun s => s.id)) now w.subscriptions := by
  induction subs with
  | nil => intro res w _; simp [sweepGo, expireAll]
  | cons sub rest ih =>
    intro res w hids
    obtain ⟨s2, hs2⟩ := findSubscriptionById_of_mem_ids w sub.id
      (hids sub (List.mem_cons_self _ _))
    have hone := processOne_noFaults_subs cid jobId trig now sub w s2 hs2
    have hids2 : ∀ x ∈ rest,
        x.id ∈ (processOneSubscription noFaults cid jobId trig now sub w).world.subscriptions.map
          (fun s => s.id) := by
      intro x hx
      rw [hone.1, expireIdInList_map_id]
      exact hids x (List.mem_cons_of_mem _ hx)
    simp only [sweepGo]
    refine ⟨?_, ?_⟩
    · rw [(ih _ _ hids2).1]
      simp only [hone.2, List.map_cons, List.append_assoc, List.singleton_append]
    · rw [(ih _ _ hids2).2, hone.1]
      simp [expireAll]

theorem mem_findExpiredSubscriptions (w : World) (now : Int) (s : Subscription) :
    s ∈ findExpiredSubscriptions w now ↔
      s ∈ w.subscriptions ∧ s.status = .ACTIVE ∧ ∃ e, s.endDate = some e ∧ e ≤ now := by
  unfold findExpiredSubscriptions
  rw [List.mem_filter]
  refine and_congr_right (fun _ => ?_)
  constructor
  · intro h2
    cases hed : s.endDate with
    | none => rw [hed] at h2; simp at h2
    | some e =>
      rw [hed] at h2
      simp at h2
      exact ⟨h2.1, e, rfl, h2.2⟩
  · rintro ⟨hst, e, hed, hle⟩
    rw [hed]
    simp [hst, hle]

theorem findExpired_after_run (w w1 : World) (now : Int)
    (hsubs : w1.subscriptions =
      expireAll ((findExpiredSubscriptions w now).map (fun s => s.id)) now w.subscriptions) :
    findExpiredSubscriptions w1 now = [] := by
  unfold findExpiredSubscriptions
  rw [List.filter_eq_nil_iff]
  intro s2 hs2
  rw [hsubs] at hs2
  obtain ⟨s, hsmem, hid, hcase⟩ := mem_expireAll _ _ _ _ hs2
  rcases hcase with ⟨heq, hnot⟩ | hexp
  · intro hpred
    apply hnot
    refine List.mem_map.mpr ⟨s2, ?_, by rw [heq]⟩
    rw [mem_findExpiredSubscriptions]
    refine ⟨by rw [heq]; exact hsmem, ?_⟩
    cases hed : s2.endDate with
    | none => rw [hed] at hpred; simp at hpred
    | some e =>
      rw [hed] at hpred
      simp at hpred
      exact ⟨hpred.1, e, rfl, hpred.2⟩
  · simp [hexp]

/-- Claim C2: the sweep selects exactly the subscriptions with status
ACTIVE and endDate <= now, and a second run at the same clock time
selects nothing, expires nothing and leaves the world unchanged, because
the first run expired exactly the selected set. -/
theorem sweep_selection_idempotent (w : World) (now : Int)
    (c1 c2 jobId1 jobId2 trig1 trig2 : String) :
    (∀ s, s ∈ findExpiredSubscriptions w now ↔
      s ∈ w.subscriptions ∧ s.status = .ACTIVE ∧ ∃ e, s.endDate = some e ∧ e ≤ now)
    ∧ (SubscriptionExpirationProcessor.process noFaults (some c1) jobId1 trig1
        w now).1.expiredSubscriptions = (findExpiredSubscriptions w now).map (fun s => s.id)
    ∧ SubscriptionExpirationProcessor.process noFaults (some c2) jobId2 trig2
        (SubscriptionExpirationProcessor.process noFaults (some c1) jobId1 trig1 w now).2 now
      = (⟨0, [], [], []⟩,
         (SubscriptionExpirationProcessor.process noFaults (some c1) jobId1 trig1 w now).2) := by
  have hids : ∀ sub ∈ findExpiredSubscriptions w now,
      sub.id ∈ w.subscriptions.map (fun s => s.id) := fun sub hsub =>
    List.mem_map.mpr ⟨sub, (List.mem_filter.mp hsub).1, rfl⟩
  have hrun := sweepGo_noFaults c1 jobId1 trig1 now (findExpiredSubscriptions w now)
    ⟨0, [], [], []⟩ w hids
  refine ⟨fun s => mem_findExpiredSubscriptions w now s, ?_, ?_⟩
  · simpa [SubscriptionExpirationProcessor.process, resolveCorrelationId] using hrun.1
  · have hempty : findExpiredSubscriptions
        (SubscriptionExpirationProcessor.process noFaults (some c1) jobId1 trig1 w now).2 now
        = [] := by
      refine findExpired_after_run w _ now ?_
      simpa [SubscriptionExpirationProcessor.process, resolveCorrelationId] using hrun.2
    unfold SubscriptionExpirationProcessor.process at hempty ⊢
    simp only [resolveCorrelationId] at hempty ⊢
    rw [hempty]
    simp [sweepGo]

theorem processOne_pushes_or_errors (faults : FaultModel) (cid jobId trig : String)
    (now : Int) (sub : Subscription) (w : World) :
    (processOneSubscription faults cid jobId trig now sub w).expiredIds = [sub.id]
    ∨ ∃ msg, (processOneSubscription faults cid jobId trig now sub w).itemError = some msg := by
  unfold processOneSubscription
  dsimp only
  repeat'
    first
      | (left; rfl)
      | (right; exact ⟨_, rfl⟩)
      | split

theorem sweepGo_mono (faults : FaultModel) (cid jobId trig : String) (now : Int)
    (subs : List Subscription) :
    ∀ (res : SubscriptionExpirationResult) (w : World),
      (∀ x ∈ res.expiredSubscriptions,
        x ∈ (sweepGo faults cid jobId trig now subs res w).1.expiredSubscriptions)
      ∧ (∀ e ∈ res.errors, e ∈ (sweepGo faults cid jobId trig now subs res w).1.errors) := by
  induction subs with
  | nil => intro res w; simp [sweepGo]
  | cons sub rest ih =>
    intro res w
    simp only [sweepGo]
    refine ⟨?_, ?_⟩
    · intro x hx
      exact (ih _ _).1 x (by simp [hx])
    · intro e he
      exact (ih _ _).2 e (by simp [he])

theorem sweepGo_summary (faults : FaultModel) (cid jobId trig : String) (now : Int)
    (subs : List Subscription) :
    ∀ (res : SubscriptionExpirationResult) (w : World),
      (sweepGo faults cid jobId trig now subs res w).1.processedCount =
          res.processedCount + subs.length
      ∧ (∀ sub ∈ subs,
          sub.id ∈ (sweepGo faults cid jobId trig now subs res w).1.expiredSubscriptions
          ∨ ∃ msg, ("Subscription " ++ sub.id ++ ": " ++ msg) ∈
              (sweepGo faults cid jobId trig now subs res w).1.errors)
      ∧ (∀ err ∈ (sweepGo faults cid jobId trig now subs res w).1.errors,
          err ∈ res.errors ∨ ∃ sub ∈ subs, ∃ msg,
            err = "Subscription " ++ sub.id ++ ": " ++ msg) := by
  induction subs with
  | nil => intro res w; simp [sweepGo]
  | cons sub rest ih =>
    intro res w
    simp only [sweepGo]
    refine ⟨?_, ?_, ?_⟩
    · rw [(ih _ _).1]
      simp
      omega
    · intro x hx
      rcases List.mem_cons.mp hx with hx1 | hx2
      · subst hx1
        rcases processOne_pushes_or_errors faults cid jobId trig now x w with hp | ⟨msg, hp⟩
        · left
          apply (sweepGo_mono faults cid jobId trig now rest _ _).1
          simp [hp]
        · right
          refine ⟨msg, ?_⟩
          apply (sweepGo_mono faults cid jobId trig now rest _ _).2
          simp [hp]
      · exact (ih _ _).2.1 x hx2
    · intro err herr
      rcases (ih _ _).2.2 err herr with h | ⟨x, hx, msg, hmsg⟩
      · rcases List.mem_append.mp (by simpa using h) with h1 | h2
        · exact .inl h1
        · right
          cases hitem : (processOneSubscription faults cid jobId trig now sub w).itemError with
          | none => rw [hitem] at h2; simp at h2
          | some m =>
            rw [hitem] at h2
            simp at h2
            exact ⟨sub, List.mem_cons_self _ _, m, h2⟩
      · exact .inr ⟨x, List.mem_cons_of_mem _ hx, msg, hmsg⟩

/-- Claim C8: no per-item failure aborts the sweep: whatever the faults,
every selected subscription is counted as processed and either lands in
the expired list or contributes an error entry tagged with its id, and
every error entry is the per-item error of some selected subscription. -/
theorem sweep_error_isolation (faults : FaultModel) (c jobId trig : String)
    (w : World) (now : Int) :
    (SubscriptionExpirationProcessor.process faults (some c) jobId trig w now).1.processedCount
        = (findExpiredSubscriptions w now).length
    ∧ (∀ sub ∈ findExpiredSubscriptions w now,
        sub.id ∈ (SubscriptionExpirationProcessor.process faults (some c) jobId trig w
            now).1.expiredSubscriptions
        ∨ ∃ msg, ("Subscription " ++ sub.id ++ ": " ++ msg) ∈
            (SubscriptionExpirationProcessor.process faults (some c) jobId trig w now).1.errors)
    ∧ (∀ err ∈ (SubscriptionExpirationProcessor.process faults (some c) jobId trig w
          now).1.errors,
        ∃ sub ∈ findExpiredSubscriptions w now, ∃ msg,
          err = "Subscription " ++ sub.id ++ ": " ++ msg) := by
  have h := sweepGo_summary faults c jobId trig now (findExpiredSubscriptions w now)
    ⟨0, [], [], []⟩ w
  unfold SubscriptionExpirationProcessor.process
  simp only [resolveCorrelationId]
  refine ⟨by rw [h.1]; simp, h.2.1, ?_⟩
  intro err herr
  rcases h.2.2 err herr with hin | hgood
  · simp at hin
  · exact hgood

theorem markExpiredRepo_spec (w : World) (id : String) (now : Int) (p : Subscription × World)
    (h : markExpiredRepo w id now = some p) :
    p.2.subscriptions = expireIdInList id now w.subscriptions
    ∧ p.2.auditLog = w.auditLog ∧ p.2.restaurants = w.restaurants := by
  unfold markExpiredRepo at h
  split at h
  · exact absurd h (by simp)
  · cases h
    exact ⟨rfl, rfl, rfl⟩

theorem processOne_audit_cid (faults : FaultModel) (cid jobId trig : String) (now : Int)
    (sub : Subscription) (w : World) (e : AuditEntry)
    (he : e ∈ (processOneSubscription faults cid jobId trig now sub w).world.auditLog) :
    e ∈ w.auditLog ∨ e.correlationId = cid := by
  unfold processOneSubscription at he
  dsimp only at he
  split at he
  · exact .inl he
  split at he
  · exact .inl he
  rename_i ew hew
  have hml := markExpiredRepo_spec w sub.id now ew hew
  split at he
  · rw [hml.2.1] at he
    exact .inl he
  have hw2 : ∀ e2, e2 ∈ (auditCreate ew.2
      (subscriptionExpiredEntry cid jobId trig sub ew.1)).auditLog →
      e2 ∈ w.auditLog ∨ e2.correlationId = cid := by
    intro e2 he2
    simp only [auditCreate, hml.2.1] at he2
    rcases List.mem_append.mp he2 with h1 | h1
    · exact .inl h1
    · right
      rw [List.mem_singleton.mp h1]
      rfl
  split at he
  · exact hw2 e he
  split at he
  · exact hw2 e he
  split at he
  · split at he
    · exact hw2 e he
    · split at he
      · exact hw2 e he
      rename_i rw2 hrw2
      have hup := updateRestaurantStatusRepo_spec _ _ _ _ _ hrw2
      split at he
      · rw [hup.2] at he
        exact hw2 e he
      · simp only [auditCreate, hup.2] at he
        rcases List.mem_append.mp he with h1 | h1
        · exact hw2 e h1
        · right
          rw [List.mem_singleton.mp h1]
          rfl
  · exact hw2 e he

theorem sweepGo_audit_cid (faults : FaultModel) (cid jobId trig : String) (now : Int)
    (subs : List Subscription) :
    ∀ (res : SubscriptionExpirationResult) (w : World) (e : AuditEntry),
      e ∈ (sweepGo faults cid jobId trig now subs res w).2.auditLog →
      e ∈ w.auditLog ∨ e.correlationId = cid := by
  induction subs with
  | nil =>
    intro res w e he
    simp only [sweepGo] at he
    exact .inl he
  | cons sub rest ih =>
    intro res w e he
    simp only [sweepGo] at he
    rcases ih _ _ e he with hin | hcid
    · exact processOne_audit_cid faults cid jobId trig now sub w e hin
    · exact .inr hcid

/-- Claim C3: during a sweep, a subscription whose owning restaurant is
found ACTIVE yields exactly two audit entries -- SUBSCRIPTION_EXPIRED
then RESTAURANT_SUSPENDED with metadata linking the subscription and
marking the suspension automatic -- both carrying the step correlation
id; a missing or non-active restaurant yields only the
SUBSCRIPTION_EXPIRED entry and leaves the restaurants unchanged; and
every entry a whole run appends carries the run correlation id. -/
theorem sweep_cascade_audit (cid jobId trig : String) (now : Int) (sub : Subscription)
    (w : World) (s : Subscription)
    (hs : findSubscriptionById w sub.id = some s) :
    (∀ r, findRestaurantById w sub.restaurantId = some r → r.isActive = true →
      ∃ e1 e2,
        (processOneSubscription noFaults cid jobId trig now sub w).world.auditLog =
            w.auditLog ++ [e1, e2]
        ∧ e1.action = .SUBSCRIPTION_EXPIRED ∧ e1.entityId = sub.id ∧ e1.correlationId = cid
        ∧ e2.action = .RESTAURANT_SUSPENDED ∧ e2.entityId = r.id ∧ e2.correlationId = cid
        ∧ ∃ m, e2.metadata = some m ∧ m.subscriptionId = some sub.id ∧
            m.automaticSuspension = some true)
    ∧ (∀ r, findRestaurantById w sub.restaurantId = some r → r.isActive = false →
      (∃ e1, (processOneSubscription noFaults cid jobId trig now sub w).world.auditLog =
          w.auditLog ++ [e1] ∧ e1.action = .SUBSCRIPTION_EXPIRED ∧ e1.correlationId = cid)
      ∧ (processOneSubscription noFaults cid jobId trig now sub w).world.restaurants =
          w.restaurants)
    ∧ (findRestaurantById w sub.restaurantId = none →
      (∃ e1, (processOneSubscription noFaults cid jobId trig now sub w).world.auditLog =
          w.auditLog ++ [e1] ∧ e1.action = .SUBSCRIPTION_EXPIRED ∧ e1.correlationId = cid)
      ∧ (processOneSubscription noFaults cid jobId trig now sub w).world.restaurants =
          w.restaurants)
    ∧ (∀ c jid tg e,
        e ∈ (SubscriptionExpirationProcessor.process noFaults (some c) jid tg w now).2.auditLog →
        e ∈ w.auditLog ∨ e.correlationId = c) := by
  refine ⟨?_, ?_, ?_, ?_⟩
  · intro r hr hact
    obtain ⟨x, hx⟩ := findRestaurantById_self w sub.restaurantId r hr
    rw [findRestaurantById] at hr hx
    unfold processOneSubscription
    simp only [noFaults, markExpiredRepo, hs, auditCreate, findRestaurantById,
      updateRestaurantStatusRepo, hr, hx]
    rw [if_pos hact]
    simp only [List.append_assoc, List.cons_append, List.singleton_append, List.nil_append]
    exact ⟨_, _, rfl, rfl, rfl, rfl, rfl, rfl, rfl, _, rfl, rfl, rfl⟩
  · intro r hr hact
    rw [findRestaurantById] at hr
    unfold processOneSubscription
    simp only [noFaults, markExpiredRepo, hs, auditCreate, findRestaurantById, hr]
    rw [if_neg (by simp [hact] : ¬(r.isActive = true))]
    exact ⟨⟨_, rfl, rfl, rfl⟩, rfl⟩
  · intro hr
    rw [findRestaurantById] at hr
    unfold processOneSubscription
    simp only [noFaults, markExpiredRepo, hs, auditCreate, findRestaurantById, hr]
    exact ⟨⟨_, rfl, rfl, rfl⟩, trivial⟩
  · intro c jid tg e he
    unfold SubscriptionExpirationProcessor.process at he
    simp only [resolveCorrelationId] at he
    exact sweepGo_audit_cid noFaults c jid tg now _ _ _ e he

/-- Witness for C10: cancelling an already-EXPIRED subscription. -/
theorem subscription_no_transition_guards_witness :
    findSubscriptionById worldC10 "sub-10" = some sampleSubC10
    ∧ ((sampleSubC10.cancel 7).status = .CANCELLED
    ∧ (sampleSubC10.expire 7).status = .EXPIRED
    ∧ sampleSubC10.cancel 7 = { sampleSubC10 with status := .CANCELLED, updatedAt := 7 }
    ∧ sampleSubC10.expire 7 = { sampleSubC10 with status := .EXPIRED, updatedAt := 7 }
    ∧ (SubscriptionUseCase.cancelSubscription worldC10 "sub-10" "user-1" (some "cid") 9).1 =
        .ok (toSubscriptionResponseDto
          { sampleSubC10 with status := .CANCELLED, updatedAt := 9 } 9)) :=
  ⟨by decide,
   subscription_no_transition_guards sampleSubC10 7 worldC10 "sub-10" "user-1" "cid" 9
     sampleSubC10 (by decide)⟩

/-- Witness for C3 at a world holding one overdue subscription whose
restaurant is ACTIVE. -/
theorem sweep_cascade_audit_witness :
    findSubscriptionById worldC3 subC3.id = some subC3
    ∧ ((∀ r, findRestaurantById worldC3 subC3.restaurantId = some r → r.isActive = true →
      ∃ e1 e2,
        (processOneSubscription noFaults "cid" "job" "trig" 100 subC3 worldC3).world.auditLog =
            worldC3.auditLog ++ [e1, e2]
        ∧ e1.action = .SUBSCRIPTION_EXPIRED ∧ e1.entityId = subC3.id ∧ e1.correlationId = "cid"
        ∧ e2.action = .RESTAURANT_SUSPENDED ∧ e2.entityId = r.id ∧ e2.correlationId = "cid"
        ∧ ∃ m, e2.metadata = some m ∧ m.subscriptionId = some subC3.id ∧
            m.automaticSuspension = some true)
    ∧ (∀ r, findRestaurantById worldC3 subC3.restaurantId = some r → r.isActive = false →
      (∃ e1, (processOneSubscription noFaults "cid" "job" "trig" 100 subC3 worldC3).world.auditLog
          = worldC3.auditLog ++ [e1] ∧ e1.action = .SUBSCRIPTION_EXPIRED ∧
          e1.correlationId = "cid")
      ∧ (processOneSubscription noFaults "cid" "job" "trig" 100 subC3 worldC3).world.restaurants
          = worldC3.restaurants)
    ∧ (findRestaurantById worldC3 subC3.restaurantId = none →
      (∃ e1, (processOneSubscription noFaults "cid" "job" "trig" 100 subC3 worldC3).world.auditLog
          = worldC3.auditLog ++ [e1] ∧ e1.action = .SUBSCRIPTION_EXPIRED ∧
          e1.correlationId = "cid")
      ∧ (processOneSubscription noFaults "cid" "job" "trig" 100 subC3 worldC3).world.restaurants
          = worldC3.restaurants)
    ∧ (∀ c jid tg e,
        e ∈ (SubscriptionExpirationProcessor.process noFaults (some c) jid tg worldC3
            100).2.auditLog →
        e ∈ worldC3.auditLog ∨ e.correlationId = c)) :=
  ⟨by decide, sweep_cascade_audit "cid" "job" "trig" 100 subC3 worldC3 subC3 (by decide)⟩

theorem resolveCorrelationId_world (corr : Option String) (w : World) :
    (resolveCorrelationId corr w).2.idemCache = w.idemCache
    ∧ (resolveCorrelationId corr w).2.orders = w.orders
    ∧ (resolveCorrelationId corr w).2.restaurants = w.restaurants
    ∧ (resolveCorrelationId corr w).2.subscriptions = w.subscriptions
    ∧ (resolveCorrelationId corr w).2.menuItems = w.menuItems := by
  cases corr <;> simp [resolveCorrelationId, freshUuid]

/-- Claim C9: with a fresh idempotency key and an existing restaurant,
order creation fails with Forbidden and leaves the world unchanged
whenever the restaurant is not active, or it has no ACTIVE subscription,
or its most recent ACTIVE subscription is not valid. -/
theorem order_create_requires_active_restaurant (w : World) (dto : CreateOrderDto)
    (customerId key : String) (corr : Option String) (now : Int) (r : Restaurant)
    (hcache : idemCheck w key = none)
    (horder : findOrderByIdempotencyKey w key = none)
    (hrest : findRestaurantById w dto.restaurantId = some r) :
    (r.isActive = false →
      OrderUseCase.create w dto customerId key corr now =
        (.error (.forbidden ("Restaurant is not accepting orders. Status: " ++
          restaurantStatusString r.status)), w))
    ∧ (r.isActive = true → findActiveByRestaurantId w dto.restaurantId = none →
      OrderUseCase.create w dto customerId key corr now =
        (.error (.forbidden "Restaurant subscription is not active or has expired"), w))
    ∧ (∀ sub, r.isActive = true → findActiveByRestaurantId w dto.restaurantId = some sub →
      sub.isValid now = false →
      OrderUseCase.create w dto customerId key corr now =
        (.error (.forbidden "Restaurant subscription is not active or has expired"), w)) := by
  refine ⟨?_, ?_, ?_⟩
  · intro hact
    unfold OrderUseCase.create
    rw [hcache, horder, hrest]
    dsimp only
    rw [if_pos (by simp [hact] : (!r.isActive) = true)]
  · intro hact hsub
    unfold OrderUseCase.create
    rw [hcache, horder, hrest]
    dsimp only
    rw [if_neg (by simp [hact] : ¬((!r.isActive) = true)), hsub]
  · intro sub hact hsub hvalid
    unfold OrderUseCase.create
    rw [hcache, horder, hrest]
    dsimp only
    rw [if_neg (by simp [hact] : ¬((!r.isActive) = true)), hsub]
    dsimp only
    rw [if_pos (by simp [hvalid] : (!sub.isValid now) = true)]

/-- Witness for C9: a suspended restaurant rejects a fresh
order-creation attempt. -/
theorem order_create_requires_active_restaurant_witness :
    idemCheck worldC9 "key-9" = none
    ∧ findOrderByIdempotencyKey worldC9 "key-9" = none
    ∧ findRestaurantById worldC9 dtoC9.restaurantId = some restC9
    ∧ ((restC9.isActive = false →
      OrderUseCase.create worldC9 dtoC9 "cust-9" "key-9" (some "cid-9") 0 =
        (.error (.forbidden ("Restaurant is not accepting orders. Status: " ++
          restaurantStatusString restC9.status)), worldC9))
    ∧ (restC9.isActive = true → findActiveByRestaurantId worldC9 dtoC9.restaurantId = none →
      OrderUseCase.create worldC9 dtoC9 "cust-9" "key-9" (some "cid-9") 0 =
        (.error (.forbidden "Restaurant subscription is not active or has expired"), worldC9))
    ∧ (∀ sub, restC9.isActive = true →
      findActiveByRestaurantId worldC9 dtoC9.restaurantId = some sub →
      sub.isValid 0 = false →
      OrderUseCase.create worldC9 dtoC9 "cust-9" "key-9" (some "cid-9") 0 =
        (.error (.forbidden "Restaurant subscription is not active or has expired"), worldC9))) :=
  ⟨by decide, by decide, by decide,
   order_create_requires_active_restaurant worldC9 dtoC9 "cust-9" "key-9" (some "cid-9") 0
     restC9 (by decide) (by decide) (by decide)⟩

/-- Counterexample to C6 as stated: activating a pending subscription
without a caller-supplied correlation id writes its two audit entries
with two distinct generated correlation ids, because the source resolves
`correlationId || uuidv4()` separately for each entry. -/
theorem subscription_activation_correlation_counterexample :
    ((SubscriptionUseCase.activateSubscription worldC6 "sub-6" "admin-1" none 0
        (fun t => t + 2592000000)).2.auditLog.map (fun e => e.correlationId))
      = ["uuid-0", "uuid-1"]
    ∧ ("uuid-0" : String) ≠ "uuid-1" := by
  exact ⟨by decide, by decide⟩

/-- Claim C6 (amended): activation fails with AlreadyActive when the
subscription is ACTIVE; otherwise it activates with startDate = now and
endDate one calendar month later, cascades the owning restaurant to
ACTIVE, and writes the restaurant-activation and subscription-activation
audit entries, which share one correlation id when the caller supplies
one (as the HTTP layer always does). -/
theorem subscription_activation (w : World) (subscriptionId adminId c : String)
    (now : Int) (addOneMonth : Int → Int) (sub : Subscription) (r : Restaurant)
    (hfound : findSubscriptionById w subscriptionId = some sub)
    (hrest : findRestaurantById w sub.restaurantId = some r) :
    (sub.isActive = true →
      SubscriptionUseCase.activateSubscription w subscriptionId adminId (some c) now addOneMonth
        = (.error (.badRequest "Subscription is already active"), w))
    ∧ (sub.isActive = false →
      (∃ dto, (SubscriptionUseCase.activateSubscription w subscriptionId adminId (some c) now
            addOneMonth).1 = .ok dto
        ∧ dto.status = .ACTIVE ∧ dto.startDate = some now
        ∧ dto.endDate = some (addOneMonth now))
      ∧ (∃ e1 e2,
          (SubscriptionUseCase.activateSubscription w subscriptionId adminId (some c) now
              addOneMonth).2.auditLog = w.auditLog ++ [e1, e2]
          ∧ e1.action = .RESTAURANT_ACTIVATED ∧ e1.entityId = r.id ∧ e1.correlationId = c
          ∧ e2.action = .SUBSCRIPTION_ACTIVATED ∧ e2.entityId = subscriptionId
          ∧ e2.correlationId = c)
      ∧ (SubscriptionUseCase.activateSubscription w subscriptionId adminId (some c) now
            addOneMonth).2.restaurants =
          w.restaurants.map (fun t =>
            if t.id == r.id then { t with status := .ACTIVE, updatedAt := now } else t)) := by
  rw [findRestaurantById] at hrest
  refine ⟨?_, ?_⟩
  · intro hact
    unfold SubscriptionUseCase.activateSubscription
    rw [hfound]
    dsimp only
    rw [if_pos hact]
  · intro hact
    unfold SubscriptionUseCase.activateSubscription
    rw [hfound]
    dsimp only
    rw [if_neg (by simp [hact] : ¬(sub.isActive = true))]
    simp only [findRestaurantById, resolveCorrelationId, auditCreate, List.append_assoc,
      List.cons_append, List.singleton_append, List.nil_append, hrest]
    exact ⟨⟨_, rfl, rfl, rfl, rfl⟩, ⟨_, _, rfl, rfl, rfl, rfl, rfl, rfl, rfl⟩, trivial⟩

/-- Witness for C6 at a pending subscription with its restaurant, and a
caller-supplied correlation id. -/
theorem subscription_activation_witness :
    findSubscriptionById worldC6 "sub-6" = some subC6
    ∧ findRestaurantById worldC6 subC6.restaurantId = some restC6
    ∧ ((subC6.isActive = true →
      SubscriptionUseCase.activateSubscription worldC6 "sub-6" "admin-1" (some "cid-6") 0
          (fun t => t + 1)
        = (.error (.badRequest "Subscription is already active"), worldC6))
    ∧ (subC6.isActive = false →
      (∃ dto, (SubscriptionUseCase.activateSubscription worldC6 "sub-6" "admin-1" (some "cid-6")
            0 (fun t => t + 1)).1 = .ok dto
        ∧ dto.status = .ACTIVE ∧ dto.startDate = some 0 ∧ dto.endDate = some ((fun t => t + 1) 0))
      ∧ (∃ e1 e2,
          (SubscriptionUseCase.activateSubscription worldC6 "sub-6" "admin-1" (some "cid-6") 0
              (fun t => t + 1)).2.auditLog = worldC6.auditLog ++ [e1, e2]
          ∧ e1.action = .RESTAURANT_ACTIVATED ∧ e1.entityId = restC6.id
          ∧ e1.correlationId = "cid-6"
          ∧ e2.action = .SUBSCRIPTION_ACTIVATED ∧ e2.entityId = "sub-6"
          ∧ e2.correlationId = "cid-6")
      ∧ (SubscriptionUseCase.activateSubscription worldC6 "sub-6" "admin-1" (some "cid-6") 0
            (fun t => t + 1)).2.restaurants =
          worldC6.restaurants.map (fun t =>
            if t.id == restC6.id then { t with status := .ACTIVE, updatedAt := 0 } else t))) :=
  ⟨by decide, by decide,
   subscription_activation worldC6 "sub-6" "admin-1" "cid-6" 0 (fun t => t + 1) subC6 restC6
     (by decide) (by decide)⟩

theorem orderRepoCreate_spec (w : World) (d : CreateOrderData) (now : Int) :
    (orderRepoCreate w d now).2.orders = (orderRepoCreate w d now).1 :: w.orders
    ∧ (orderRepoCreate w d now).1.idempotencyKey = d.idempotencyKey
    ∧ (orderRepoCreate w d now).2.idemCache = w.idemCache := by
  unfold orderRepoCreate freshUuid
  exact ⟨rfl, rfl, rfl⟩

theorem worldAfterStore_idemCache (wb : World) (key : String) (code : Nat)
    (body : OrderResponseDto) (corr : Option String) (entry : AuditEntry) :
    (auditCreate (resolveCorrelationId corr (idemStore wb key code body)).2 entry).idemCache
      = (key, ⟨code, body⟩) :: wb.idemCache := by
  cases corr <;> rfl

theorem worldAfterStore_orders (wb : World) (key : String) (code : Nat)
    (body : OrderResponseDto) (corr : Option String) (entry : AuditEntry) :
    (auditCreate (resolveCorrelationId corr (idemStore wb key code body)).2 entry).orders
      = wb.orders := by
  cases corr <;> rfl

theorem create_after_store (wb : World) (key : String) (code : Nat)
    (body : OrderResponseDto) (corr : Option String) (entry : AuditEntry)
    (dto2 : CreateOrderDto) (cust2 : String) (corr2 : Option String) (now2 : Int) :
    OrderUseCase.create
        (auditCreate (resolveCorrelationId corr (idemStore wb key code body)).2 entry)
        dto2 cust2 key corr2 now2
      = (.ok body,
         auditCreate (resolveCorrelationId corr (idemStore wb key code body)).2 entry) := by
  have hic : idemCheck
      (auditCreate (resolveCorrelationId corr (idemStore wb key code body)).2 entry) key
      = some ⟨code, body⟩ := by
    unfold idemCheck
    rw [worldAfterStore_idemCache, List.find?_cons_of_pos _ (by simp)]
    rfl
  unfold OrderUseCase.create
  rw [hic]

/-- Claim C4: with a fresh idempotency key, a successful create stores
its response under the key and persists exactly one order carrying the
key; a second create with the same key replays the identical response
from the cache and leaves the world untouched; independently, on a cache
miss an order already persisted under the key is answered from the
repository without re-running the business logic. -/
theorem order_create_idempotent (w : World) (dto dto2 : CreateOrderDto)
    (customerId customerId2 key : String) (corr corr2 : Option String) (now now2 : Int)
    (resp : OrderResponseDto) (w1 : World)
    (hcache : idemCheck w key = none)
    (horder : findOrderByIdempotencyKey w key = none)
    (hfirst : OrderUseCase.create w dto customerId key corr now = (.ok resp, w1)) :
    OrderUseCase.create w1 dto2 customerId2 key corr2 now2 = (.ok resp, w1)
    ∧ w1.orders.length = w.orders.length + 1
    ∧ (w1.orders.filter (fun o => o.idempotencyKey == key)).length = 1
    ∧ (∀ w0 o, idemCheck w0 key = none → findOrderByIdempotencyKey w0 key = some o →
        OrderUseCase.create w0 dto customerId key corr now =
          (.ok (toOrderResponseDto o), w0)) := by
  have horder2 : List.find? (fun o => o.idempotencyKey == key) w.orders = none := horder
  have hnone : ∀ o ∈ w.orders, ¬(o.idempotencyKey == key) = true := by
    intro o ho
    simpa using List.find?_eq_none.mp horder2 o ho
  unfold OrderUseCase.create at hfirst
  rw [hcache, horder] at hfirst
  dsimp only at hfirst
  split at hfirst
  · simp at hfirst
  split at hfirst
  · simp at hfirst
  split at hfirst
  · simp at hfirst
  split at hfirst
  · simp at hfirst
  split at hfirst
  · simp at hfirst
  rw [Prod.mk.injEq] at hfirst
  obtain ⟨h1, h2⟩ := hfirst
  rw [Except.ok.injEq] at h1
  subst h1
  subst h2
  refine ⟨?_, ?_, ?_, ?_⟩
  · exact create_after_store _ key 201 _ corr _ dto2 customerId2 corr2 now2
  · rw [worldAfterStore_orders, (orderRepoCreate_spec _ _ _).1]
    simp
  · rw [worldAfterStore_orders, (orderRepoCreate_spec _ _ _).1]
    rw [List.filter_cons_of_pos (by simp [(orderRepoCreate_spec _ _ _).2.1]),
      List.filter_eq_nil_iff.mpr hnone]
    rfl
  · intro w0 o hc ho
    unfold OrderUseCase.create
    rw [hc, ho]

/-- Witness for C4 at a concrete world with one active restaurant, a
valid subscription and one available menu item. -/
theorem order_create_idempotent_witness :
    idemCheck worldC4 "key-4" = none
    ∧ findOrderByIdempotencyKey worldC4 "key-4" = none
    ∧ OrderUseCase.create worldC4 dtoC4 "cust-4" "key-4" (some "cid-4") 10 =
        (.ok respC4, worldC4b)
    ∧ (OrderUseCase.create worldC4b dtoC4 "cust-4b" "key-4" (some "cid-4b") 20 =
        (.ok respC4, worldC4b)
    ∧ worldC4b.orders.length = worldC4.orders.length + 1
    ∧ (worldC4b.orders.filter (fun o => o.idempotencyKey == "key-4")).length = 1
    ∧ (∀ w0 o, idemCheck w0 "key-4" = none →
        findOrderByIdempotencyKey w0 "key-4" = some o →
        OrderUseCase.create w0 dtoC4 "cust-4" "key-4" (some "cid-4") 10 =
          (.ok (toOrderResponseDto o), w0))) :=
  ⟨by decide, by decide, by rfl,
   order_create_idempotent worldC4 dtoC4 dtoC4 "cust-4" "cust-4b" "key-4" (some "cid-4")
     (some "cid-4b") 10 20 respC4 worldC4b (by decide) (by decide) (by rfl)⟩

end Salo
